import Mathlib

set_option maxRecDepth 10000

/-!
Shallow embedding of the Advent-of-Code-2023 solvers (Rust) that the
specification's claims are about: day 1, day 6, day 20, day 25, and the
CLI harness (main / solution_import).  Strings are modelled as `List Char`
(obtained from Lean `String` literals via `.data`), Rust `i64` as `Int`
with explicit overflow checks where the source can overflow, Rust panics
as `Option.none`, and Rust `HashMap` as an association list (a
determinisation of the arbitrary iteration order; noted at each use).
-/

namespace Rust

/-- The Unicode White_Space property, as used by Rust `char::is_whitespace`. -/
def isWhitespace (c : Char) : Bool :=
  c.toNat == 0x09 || c.toNat == 0x0A || c.toNat == 0x0B || c.toNat == 0x0C ||
  c.toNat == 0x0D || c.toNat == 0x20 || c.toNat == 0x85 || c.toNat == 0xA0 ||
  c.toNat == 0x1680 || (0x2000 ≤ c.toNat && c.toNat ≤ 0x200A) ||
  c.toNat == 0x2028 || c.toNat == 0x2029 || c.toNat == 0x202F ||
  c.toNat == 0x205F || c.toNat == 0x3000

/-- Helper for `lines`: accumulates the current line (reversed) while scanning.
When a line is terminated by a newline, a carriage return directly before the
newline is removed, as Rust `str::lines` does. -/
def linesGo : List Char → List Char → List (List Char)
  | [], acc => if acc.isEmpty then [] else [acc.reverse]
  | c :: rest, acc =>
    if c = '\n' then
      (match acc with
       | '\r' :: a => a.reverse
       | a => a.reverse) :: linesGo rest []
    else linesGo rest (c :: acc)

/-- Rust `str::lines`: split on newlines, no trailing empty line for a
trailing newline, `\r\n` line endings stripped. -/
def lines (s : List Char) : List (List Char) := linesGo s []

/-- Rust `str::trim`: remove leading and trailing whitespace. -/
def trim (s : List Char) : List Char :=
  ((s.dropWhile isWhitespace).reverse.dropWhile isWhitespace).reverse

/-- Numeric value of a decimal digit character. -/
def digitVal (c : Char) : Nat := c.toNat - '0'.toNat

/-- Parse a non-empty all-decimal-digit string as a natural number. -/
def parseNatDigits : List Char → Option Nat
  | [] => none
  | cs =>
    if cs.all Char.isDigit then
      some (cs.foldl (fun a c => a * 10 + digitVal c) 0)
    else none

/-- Rust `i64::from_str` (as invoked by `str::parse::<i64>()`): optional sign,
decimal digits, overflow checked against the i64 range. -/
def parseI64 (s : List Char) : Option Int :=
  match s with
  | '-' :: rest =>
    (parseNatDigits rest).bind fun n =>
      if n ≤ 2 ^ 63 then some (-(n : Int)) else none
  | '+' :: rest =>
    (parseNatDigits rest).bind fun n =>
      if n ≤ 2 ^ 63 - 1 then some (n : Int) else none
  | _ =>
    (parseNatDigits s).bind fun n =>
      if n ≤ 2 ^ 63 - 1 then some (n : Int) else none

/-- Rust `u32::from_str`: optional leading plus, decimal digits, overflow
checked against the u32 range. -/
def parseU32 (s : List Char) : Option Nat :=
  match s with
  | '+' :: rest =>
    (parseNatDigits rest).bind fun n => if n < 2 ^ 32 then some n else none
  | _ =>
    (parseNatDigits s).bind fun n => if n < 2 ^ 32 then some n else none

/-- Helper for `replace`: one fuel unit per consumed character. -/
def replaceGo : Nat → List Char → List Char → List Char → List Char
  | 0, s, _, _ => s
  | _ + 1, [], _, _ => []
  | fuel + 1, c :: rest, pat, rep =>
    if pat.isPrefixOf (c :: rest) then
      rep ++ replaceGo fuel ((c :: rest).drop pat.length) pat rep
    else
      c :: replaceGo fuel rest pat rep

/-- Rust `str::replace`: replace all non-overlapping occurrences of `pat`,
scanning left to right. -/
def replace (s pat rep : List Char) : List Char := replaceGo s.length s pat rep

/-- Maps a fallible (panicking) operation over a list; any panic propagates.
Models a Rust iterator chain whose closure can panic. -/
def mapAll (f : α → Option β) : List α → Option (List β)
  | [] => some []
  | x :: xs =>
    match f x, mapAll f xs with
    | some y, some ys => some (y :: ys)
    | _, _ => none

/-- Helper for `splitChar`, accumulating the current piece reversed. -/
def splitGo (sep : Char) : List Char → List Char → List (List Char)
  | [], acc => [acc.reverse]
  | c :: rest, acc =>
    if c = sep then acc.reverse :: splitGo sep rest []
    else splitGo sep rest (c :: acc)

/-- Rust `str::split` with a single-character pattern: always yields at least
one (possibly empty) piece. -/
def splitChar (sep : Char) (s : List Char) : List (List Char) := splitGo sep s []

/-- Helper for `splitWhitespace`. -/
def splitWsGo : List Char → List Char → List (List Char)
  | [], acc => if acc.isEmpty then [] else [acc.reverse]
  | c :: rest, acc =>
    if isWhitespace c then
      if acc.isEmpty then splitWsGo rest []
      else acc.reverse :: splitWsGo rest []
    else splitWsGo rest (c :: acc)

/-- Rust `str::split_whitespace`: the maximal runs of non-whitespace
characters, never yielding empty pieces. -/
def splitWhitespace (s : List Char) : List (List Char) := splitWsGo s []

end Rust

namespace Day01

/-- `sum_numbers`, per line: trim, keep the decimal digits, take the first and
the last digit (panic if there is none), and parse the two-character string
they form as an `i64`. -/
def lineNumber (line : List Char) : Option Int :=
  let digits := (Rust.trim line).filter (fun c => c.isDigit)
  match digits.head?, digits.getLast? with
  | some first, some last => Rust.parseI64 [first, last]
  | _, _ => none

/-- `sum_numbers`: sum of the per-line numbers over all lines of the input. -/
def sum_numbers (input : String) : Option Int :=
  (Rust.mapAll lineNumber (Rust.lines input.data)).map
    (fun ns => ns.foldl (· + ·) 0)

/-- Day 1 `part1`. -/
def part1 (input : String) : Option Int := sum_numbers input

/-- The search/replace table of day 1 `part2`, in source order. -/
def digitWords : List (List Char × List Char) :=
  [("one".data, "o1e".data), ("two".data, "t2o".data), ("three".data, "th3ee".data),
   ("four".data, "f4ur".data), ("five".data, "f5ve".data), ("six".data, "s6x".data),
   ("seven".data, "se7en".data), ("eight".data, "ei8ht".data), ("nine".data, "n9ne".data)]

/-- The fold of `str::replace` calls at the start of day 1 `part2`. -/
def fixDigitWords (input : String) : String :=
  ⟨digitWords.foldl (fun acc p => Rust.replace acc p.1 p.2) input.data⟩

/-- Day 1 `part2`: inject literal digits into the spelled-out digit words,
then proceed exactly as `part1`. -/
def part2 (input : String) : Option Int := sum_numbers (fixDigitWords input)

end Day01

namespace Day06

/-- The `ways_to_win` loop of day 6: `waysGo maxTime record n` is the number of
hold times `t` with `0 ≤ t < n` whose travelled distance
`(maxTime - t) * t` beats `record` (the Rust loop runs it at `n = maxTime`). -/
def waysGo (maxTime record : Int) : Nat → Int
  | 0 => 0
  | t + 1 =>
    waysGo maxTime record t +
      (if record < (maxTime - (t : Int)) * (t : Int) then 1 else 0)

/-- `ways_to_win`: brute-force count of the winning hold times of one round. -/
def ways_to_win (p : Int × Int) : Int := waysGo p.1 p.2 p.1.toNat

/-- One line of day 6 `part1` parsing: split at `:`, take the last piece,
trim it, split on whitespace and parse every token as an `i64`. -/
def lineNumbers (line : List Char) : Option (List Int) :=
  match (Rust.splitChar ':' line).getLast? with
  | none => none
  | some piece => Rust.mapAll Rust.parseI64 (Rust.splitWhitespace (Rust.trim piece))

/-- Day 6 `part1`: take the first two lines (the `.pair()` call; panic when
missing), parse them into the time and distance lists, zip them into rounds,
and multiply the `ways_to_win` counts.  (The Rust code parses the numbers
lazily while consuming the zip; the eager parse here can only differ by
turning a panic that Rust would skip into `none`, which does not happen on
inputs whose first two lines are well formed.) -/
def part1 (input : String) : Option Int :=
  let ls := Rust.lines input.data
  (ls.get? 0).bind fun l1 =>
  (ls.get? 1).bind fun l2 =>
  (lineNumbers l1).bind fun times =>
  (lineNumbers l2).bind fun distances =>
  some (((times.zip distances).map ways_to_win).foldl (· * ·) 1)

/-- Day 6 `part2`: remove all spaces from the input, then run `part1`. -/
def part2 (input : String) : Option Int :=
  part1 ⟨Rust.replace input.data [' '] []⟩

end Day06

namespace Day20

/-- The three gate kinds of day 20 (`ModuleType`). -/
inductive ModuleType where
  | Broadcast
  | FlipFlop
  | Conjunction
deriving DecidableEq

/-- A gate (`Module`): its name, kind, input connections with their last seen
values, and output connections. -/
structure Module where
  name : String
  module_type : ModuleType
  inputs : List String
  input_values : List Bool
  outputs : List String
deriving DecidableEq

/-- The circuit `HashMap<String, Module>`, as an association list (iteration
order determinised to insertion order; the simulation result is not affected
because signal dispatch is by name). -/
abbrev Circuit := List (String × Module)

/-- A signal `(from, to, value)`. -/
abbrev Signal := String × String × Bool

/-- `HashMap` lookup. -/
def lookup (c : Circuit) (key : String) : Option Module :=
  (c.find? (fun e => e.1 == key)).map (fun e => e.2)

/-- `HashMap` in-place update of the entry with the given key. -/
def mapUpdate (c : Circuit) (key : String) (f : Module → Module) : Circuit :=
  c.map (fun e => if e.1 == key then (e.1, f e.2) else e)

/-- `HashMap` insert: replace an existing entry, else append. -/
def insertAssoc (c : Circuit) (key : String) (m : Module) : Circuit :=
  if (c.find? (fun e => e.1 == key)).isSome then mapUpdate c key (fun _ => m)
  else c ++ [(key, m)]

/-- `parse::module_type`: an optional single non-alphabetic character selects
conjunction (`&`) or flip-flop (`%`); anything else is a broadcaster. -/
def parseModuleType : List Char → ModuleType × List Char
  | [] => (ModuleType.Broadcast, [])
  | c :: rest =>
    if !c.isAlpha then
      (match c with
       | '&' => ModuleType.Conjunction
       | '%' => ModuleType.FlipFlop
       | _ => ModuleType.Broadcast, rest)
    else (ModuleType.Broadcast, c :: rest)

/-- Helper for `parseConnections`: further `", name"` groups (winnow
`separated` backtracks an unmatched separator). -/
def parseConnsGo : Nat → List Char → List String → List String × List Char
  | 0, s, acc => (acc.reverse, s)
  | fuel + 1, s, acc =>
    match s with
    | ',' :: ' ' :: rest =>
      let run := rest.takeWhile Char.isAlphanum
      if run.isEmpty then (acc.reverse, s)
      else parseConnsGo fuel (rest.dropWhile Char.isAlphanum) (⟨run⟩ :: acc)
    | _ => (acc.reverse, s)

/-- `parse::connections`: one or more alphanumeric names separated by `", "`. -/
def parseConnections (s : List Char) : Option (List String × List Char) :=
  let run := s.takeWhile Char.isAlphanum
  if run.isEmpty then none
  else some (parseConnsGo s.length (s.dropWhile Char.isAlphanum) [⟨run⟩])

/-- `parse::module`: kind symbol, name, `" -> "`, connection list, end of
line; `inputs`/`input_values` start empty (the `..Default::default()`). -/
def parseModule (line : List Char) : Option Module :=
  let (mt, rest1) := parseModuleType line
  let nameRun := rest1.takeWhile Char.isAlphanum
  let rest2 := rest1.dropWhile Char.isAlphanum
  if nameRun.isEmpty then none
  else
    match rest2 with
    | ' ' :: '-' :: '>' :: ' ' :: rest3 =>
      (parseConnections rest3).bind fun pr =>
      if pr.2.isEmpty then
        some { name := ⟨nameRun⟩, module_type := mt, inputs := [], input_values := [],
               outputs := pr.1 }
      else none
    | _ => none

/-- The "connect outputs to the inputs" loop of `parse::circuit`: for every
module (snapshot), register it as an input of each of its existing outputs. -/
def connect (c : Circuit) : Circuit :=
  (c.map (fun e => e.2)).foldl (fun acc m =>
    m.outputs.foldl (fun acc2 o =>
      if (lookup acc2 o).isSome then
        mapUpdate acc2 o (fun mm =>
          { mm with inputs := mm.inputs ++ [m.name],
                    input_values := mm.input_values ++ [false] })
      else acc2) acc) c

/-- The final step of `parse::circuit`: wire the button into the broadcaster
(panic when there is no broadcaster). -/
def addButton (c : Circuit) : Option Circuit :=
  match lookup c "broadcaster" with
  | none => none
  | some _ => some (mapUpdate c "broadcaster" (fun mm =>
      { mm with inputs := mm.inputs ++ ["button"],
                input_values := mm.input_values ++ [false] }))

/-- `parse::circuit`: parse every trimmed line as a module, collect them by
name, connect inputs, and wire the button. -/
def parseCircuit (input : String) : Option Circuit :=
  (Rust.mapAll (fun l => parseModule (Rust.trim l)) (Rust.lines input.data)).bind fun mods =>
  addButton (connect (mods.foldl (fun acc m => insertAssoc acc m.name m) []))

/-- `process_signal`: deliver one signal to its target module, returning the
updated circuit and the value the target emits (if any); `none` models the
panics (flip-flop with no recorded input, conjunction fed by an unknown
sender). -/
def processSignal (c : Circuit) (sig : Signal) : Option (Circuit × Option Bool) :=
  match lookup c sig.2.1 with
  | none => some (c, none)
  | some m =>
    match m.module_type with
    | ModuleType.Broadcast => some (c, some sig.2.2)
    | ModuleType.FlipFlop =>
      match m.input_values with
      | [] => none
      | s :: restVals =>
        if sig.2.2 then some (c, none)
        else
          some (mapUpdate c sig.2.1 (fun mm => { mm with input_values := (!s) :: restVals }),
                some (!s))
    | ModuleType.Conjunction =>
      match m.inputs.findIdx? (fun x => x == sig.1) with
      | none => none
      | some idx =>
        if idx < m.input_values.length then
          let newVals := m.input_values.set idx sig.2.2
          some (mapUpdate c sig.2.1 (fun mm => { mm with input_values := newVals }),
                some (if newVals.all (fun x => x) then false else true))
        else none

/-- The signal-queue loop of `part1`'s button press: pop front, count the
pulse, process it, push the emitted signals for each output.  The fuel only
bounds the queue (the Rust loop is unbounded); `none` on exhaustion. -/
def simGo (fuel : Nat) (c : Circuit) (q : List Signal) (low high : Int) :
    Option (Circuit × Int × Int) :=
  match q with
  | [] => some (c, low, high)
  | sig :: rest =>
    match fuel with
    | 0 => none
    | fuel2 + 1 =>
      let low2 := if sig.2.2 then low else low + 1
      let high2 := if sig.2.2 then high + 1 else high
      match processSignal c sig with
      | none => none
      | some (c2, none) => simGo fuel2 c2 rest low2 high2
      | some (c2, some v) =>
        match lookup c2 sig.2.1 with
        | none => none
        | some m => simGo fuel2 c2 (rest ++ m.outputs.map (fun o => (sig.2.1, o, v))) low2 high2

/-- One button press: seed the queue with `("button", "broadcaster", low)`. -/
def pressButton (c : Circuit) : Option (Circuit × Int × Int) :=
  simGo 10000 c [("button", "broadcaster", false)] 0 0

/-- The 1000-press loop of `part1`, accumulating the low/high pulse counts. -/
def pressLoop (c : Circuit) (low high : Int) : Nat → Option (Circuit × Int × Int)
  | 0 => some (c, low, high)
  | n + 1 =>
    match pressButton c with
    | none => none
    | some r => pressLoop r.1 (low + r.2.1) (high + r.2.2) n

/-- Day 20 `part1`: parse, simulate 1000 presses, multiply the total low and
high pulse counts. -/
def part1 (input : String) : Option Int :=
  (parseCircuit input).bind fun c =>
  (pressLoop c 0 0 1000).map fun r => r.2.1 * r.2.2

/-- The day 20 example circuit with flip-flop and conjunction states
`a`, `inv`, `b` and `con = [ca, cb]`. -/
def exState (a inv b ca cb : Bool) : Circuit :=
  [("broadcaster",
    { name := "broadcaster", module_type := ModuleType.Broadcast,
      inputs := ["button"], input_values := [false], outputs := ["a"] }),
   ("a",
    { name := "a", module_type := ModuleType.FlipFlop,
      inputs := ["broadcaster"], input_values := [a], outputs := ["inv", "con"] }),
   ("inv",
    { name := "inv", module_type := ModuleType.Conjunction,
      inputs := ["a"], input_values := [inv], outputs := ["b"] }),
   ("b",
    { name := "b", module_type := ModuleType.FlipFlop,
      inputs := ["inv"], input_values := [b], outputs := ["con"] }),
   ("con",
    { name := "con", module_type := ModuleType.Conjunction,
      inputs := ["a", "b"], input_values := [ca, cb], outputs := ["output"] })]

end Day20

/-- The literal example input of the day 20 test. -/
def ex20 : String :=
  "broadcaster -> a\n        %a -> inv, con\n        &inv -> b\n        %b -> con\n        &con -> output"

namespace Harness

/-- The day numbers of the solution modules found by `list_files!("../day*.rs")`
(`day01.rs` through `day25.rs`). -/
def solutionDays : List Nat :=
  [1, 2, 3, 4, 5, 6, 7, 8, 9, 10, 11, 12, 13, 14, 15, 16, 17, 18, 19, 20,
   21, 22, 23, 24, 25]

/-- The day-selection logic of `main`: the latest (maximum) day, overridden by
the first CLI argument when it parses as a `u32`; then look the selected day
up among the solutions (`none` models the two `unwrap` panics). -/
def selectDay (arg : Option String) : Option Nat :=
  solutionDays.max?.bind fun latest =>
    solutionDays.find?
      (fun d => d == (arg.bind (fun s => Rust.parseU32 s.data)).getD latest)

/-- `main` after day selection: run the selected day's solution (abstracted as
`run`); a selection panic happens before anything runs. -/
def mainRun {α : Type} (run : Nat → Option α) (arg : Option String) : Option α :=
  (selectDay arg).bind run

/-- Rust `format!("{:02}", n)`: decimal, left-padded with zeros to width 2. -/
def pad2 (n : Nat) : String :=
  let s := toString n
  if s.length < 2 then ⟨List.replicate (2 - s.length) '0'⟩ ++ s else s

/-- The input path `format!("inputs/day{:02}.txt", day)` of `run_solution_day`. -/
def dayInputPath (day : Nat) : String := "inputs/day" ++ pad2 day ++ ".txt"

/-- `run_solution_day`: read the day's input file (panic when absent) and run
part 1 followed by part 2 on that same content (the printing is omitted). -/
def run_solution_day {α : Type} (p1 p2 : String → α) (day : Nat)
    (fs : String → Option String) : Option (α × α) :=
  (fs (dayInputPath day)).map (fun input => (p1 input, p2 input))

/-- Modelled from the spec: the path convention `inputs/dayNN.txt`, where `NN`
is the day number as exactly two decimal digits.  Stated independently of the
source's `format!` call, for comparison with `dayInputPath`. -/
def specDayPath (day : Nat) : String :=
  ⟨['i', 'n', 'p', 'u', 't', 's', '/', 'd', 'a', 'y',
    Char.ofNat (48 + day / 10 % 10), Char.ofNat (48 + day % 10),
    '.', 't', 'x', 't']⟩

end Harness

namespace Day25

/-- A node: three characters, e.g. `"abc"` (`type Node`). -/
abbrev Node := Char × Char × Char

/-- The graph `HashMap<Node, Vec<Node>>`, as an association list (iteration
order determinised to insertion order; together with the explicit random
oracle this covers the outcomes of the Rust code's randomised traversal). -/
abbrev Graph := List (Node × List Node)

/-- `parse_node_id`: the first three characters of the name padded with
`"__"` (`none` models the panic on an empty name). -/
def parse_node_id (name : String) : Option Node :=
  match (name ++ "__").data with
  | a :: b :: c :: _ => some (a, b, c)
  | _ => none

/-- Helper for `alphanums`: maximal alphanumeric runs of a line. -/
def alphaRunsGo : List Char → List Char → List String
  | [], acc => if acc.isEmpty then [] else [⟨acc.reverse⟩]
  | c :: rest, acc =>
    if c.isAlphanum then alphaRunsGo rest (c :: acc)
    else if acc.isEmpty then alphaRunsGo rest []
    else ⟨acc.reverse⟩ :: alphaRunsGo rest []

/-- `parse::alphanums`: the alphanumeric runs of a line; panic (`none`) when
there is none. -/
def alphanums (s : List Char) : Option (List String) :=
  let runs := alphaRunsGo s []
  if runs.isEmpty then none else some runs

/-- `HashMap::entry(k).or_insert(vec![]).push(v)`: append `v` to the entry of
`k`, creating the entry at the end when absent. -/
def pushEdge (g : Graph) (k v : Node) : Graph :=
  if (g.find? (fun e => e.1 == k)).isSome then
    g.map (fun e => if e.1 == k then (e.1, e.2 ++ [v]) else e)
  else g ++ [(k, [v])]

/-- Helper for `dedupFirst`: keep elements not seen before. -/
def dedupGo (seen : List Node) : List Node → List Node
  | [] => []
  | x :: xs => if seen.contains x then dedupGo seen xs else x :: dedupGo (seen ++ [x]) xs

/-- itertools `unique()`: drop duplicates, keeping first occurrences. -/
def dedupFirst (l : List Node) : List Node := dedupGo [] l

/-- Day 25 `parse`: split every line into alphanumeric names; the first name
of a line is adjacent to all the others, and edges are recorded in both
directions; finally duplicates are removed from every adjacency list. -/
def parse25 (input : String) : Option Graph :=
  (Rust.mapAll alphanums (Rust.lines input.data)).bind fun items =>
  (items.foldlM (fun (g : Graph) (item : List String) =>
    match item with
    | [] => none
    | a :: rest =>
      rest.foldlM (fun (g2 : Graph) (b : String) =>
        (parse_node_id a).bind fun na =>
        (parse_node_id b).bind fun nb =>
        some (pushEdge (pushEdge g2 na nb) nb na)) g) ([] : Graph) : Option Graph).map
  (fun g => g.map (fun e => (e.1, dedupFirst e.2)))

/-- The contraction state of `karger_min_cut`: each node carries its adjacency
list and the list of nodes merged into it. -/
abbrev KState := List (Node × (List Node × List Node))

/-- The contraction loop of `karger_min_cut`.  `rand k` models the `k`-th call
to `rng.gen_range` (taken modulo the requested bound); `none` models the
panics (`gen_range` on an empty range, `remove(..).unwrap()`, the two
`assert!`s).  One fuel unit per contraction; the state shrinks by one node
per contraction, so fuel `st.length` always suffices. -/
def kargerLoop (rand : Nat → Nat) : Nat → Nat → KState → Option KState
  | _, 0, st => if st.length ≤ 2 then some st else none
  | k, fuel + 1, st =>
    if st.length ≤ 2 then some st
    else
      match st.get? (rand k % st.length) with
      | none => none
      | some entry =>
        let mergedNode := entry.1
        let oldNeighbors := entry.2.1
        let prevMerged := entry.2.2
        let st1 := st.eraseP (fun e => e.1 == mergedNode)
        if oldNeighbors.length = 0 then none
        else
          match oldNeighbors.get? (rand (k + 1) % oldNeighbors.length) with
          | none => none
          | some mergeInto =>
            match st1.find? (fun e => e.1 == mergeInto) with
            | none => none
            | some mi =>
              if mi.2.1.contains mergeInto then none
              else
                let st2 := st1.eraseP (fun e => e.1 == mergeInto)
                let newInner := mi.2.2 ++ prevMerged
                let newNeighbors := (mi.2.1 ++ oldNeighbors).filter
                    (fun n => !(n == mergeInto) && !(n == mergedNode))
                if newNeighbors.contains mergeInto then none
                else
                  let st3 := st2 ++ [(mergeInto, (newNeighbors, newInner))]
                  let st4 := st3.map (fun e =>
                    if e.2.1.contains mergedNode then
                      (e.1, (dedupFirst (e.2.1.map
                        (fun nb => if nb == mergedNode then mergeInto else nb)), e.2.2))
                    else e)
                  kargerLoop rand (k + 2) fuel st4

/-- `karger_min_cut`: contract random edges until two super-nodes remain;
return the number of edges between the two resulting vertex sets and their
sizes. -/
def karger_min_cut (graph : Graph) (rand : Nat → Nat) : Option (Int × Int × Int) :=
  let st0 : KState := graph.map (fun e => (e.1, (e.2, [e.1])))
  (kargerLoop rand 0 st0.length st0).bind fun st =>
  match st with
  | [(_, (_, ma)), (_, (_, mb))] =>
    (ma.foldlM (fun (acc : Nat) (node : Node) =>
      match graph.find? (fun e => e.1 == node) with
      | none => none
      | some e => some (acc + (e.2.filter (fun x => mb.contains x)).length)) 0 :
        Option Nat).map
    (fun cnt => ((cnt : Int), (ma.length : Int), (mb.length : Int)))
  | _ => none

/-- The trial loop of day 25 `part1`: run `karger_min_cut` for the trials
`i, i+1, ...` (at most `n` of them, each with its own random stream
`oracle i`), stopping at the first trial whose cut has exactly 3 edges and
returning the product of the two subgraph sizes; `none` models both the
`expect` panic after 1000 fruitless trials and a panic inside a trial.
(The Rust code runs the trials on a thread pool and `find_any` keeps whichever
3-cut trial wins the race; taking the first matching trial is one of those
outcomes.) -/
def searchTrials (g : Graph) (oracle : Nat → Nat → Nat) : Nat → Nat → Option Int
  | _, 0 => none
  | i, n + 1 =>
    match karger_min_cut g (oracle i) with
    | none => none
    | some r => if r.1 = 3 then some (r.2.1 * r.2.2) else searchTrials g oracle (i + 1) n

/-- Day 25 `part1`: parse the graph and run at most 1000 randomized
Karger trials. -/
def part1 (input : String) (oracle : Nat → Nat → Nat) : Option Int :=
  (parse25 input).bind fun g => searchTrials g oracle 0 1000

/-- Day 25 `part2`: there is no part 2; the function ignores its input and
returns 0. -/
def part2 (_input : String) : Int := 0

end Day25

/-- The complete 4-node graph, as a day 25 input. -/
def k4input : String := "aa: bb cc dd\nbb: cc dd\ncc: dd"

/-- The parsed complete 4-node graph. -/
def gK4 : Day25.Graph :=
  [(('a', 'a', '_'), [('b', 'b', '_'), ('c', 'c', '_'), ('d', 'd', '_')]),
   (('b', 'b', '_'), [('a', 'a', '_'), ('c', 'c', '_'), ('d', 'd', '_')]),
   (('c', 'c', '_'), [('a', 'a', '_'), ('b', 'b', '_'), ('d', 'd', '_')]),
   (('d', 'd', '_'), [('a', 'a', '_'), ('b', 'b', '_'), ('c', 'c', '_')])]

/-- A random stream under which every Karger trial on `gK4` contracts to a
2+2 split, whose cut has 4 edges (never 3). -/
def oracleA : Nat → Nat → Nat := fun _ k => if k = 3 then 1 else 0

/-- A random stream under which the first Karger trial on `gK4` contracts to
a 1+3 split, whose cut has exactly 3 edges. -/
def oracleB : Nat → Nat → Nat := fun _ k => if k = 2 then 2 else 0

/-- The two-node graph parsed from `"aa: bb"`. -/
def g2 : Day25.Graph :=
  [(('a', 'a', '_'), [('b', 'b', '_')]), (('b', 'b', '_'), [('a', 'a', '_')])]

/-- The loop count equals the cardinality of the set of winning hold times
below the loop bound. -/
theorem Day06.waysGo_eq_card (T R : Int) (n : Nat) :
    Day06.waysGo T R n =
      (((Finset.range n).filter
          (fun t : Nat => R < (T - (t : Int)) * (t : Int))).card : Int) := by
  induction n with
  | zero => simp [Day06.waysGo]
  | succ n ih =>
    simp only [Day06.waysGo, ih]
    rw [Finset.range_succ, Finset.filter_insert]
    by_cases h : R < (T - (n : Int)) * (n : Int)
    · rw [if_pos h, if_pos h, Finset.card_insert_of_not_mem (by simp)]
      push_cast
      ring
    · rw [if_neg h, if_neg h]
      ring

/-- The winning hold times of the day 6 example round of `part2` form the
interval `[14, 71516]`. -/
theorem Day06.example_filter_eq :
    (Finset.range 71530).filter
        (fun t : Nat => (940200 : Int) < ((71530 : Int) - (t : Int)) * (t : Int)) =
      Finset.Icc 14 71516 := by
  ext t
  simp only [Finset.mem_filter, Finset.mem_range, Finset.mem_Icc]
  constructor
  · rintro ⟨hlt, hw⟩
    have h2 : ((t : Int)) < 71530 := by exact_mod_cast hlt
    constructor
    · by_contra hc
      push_neg at hc
      have h13 : (t : Int) ≤ 13 := by exact_mod_cast Nat.lt_succ_iff.mp hc
      nlinarith [mul_nonneg (by omega : (0:Int) ≤ 13 - (t : Int))
        (by omega : (0:Int) ≤ 71517 - (t : Int))]
    · by_contra hc
      push_neg at hc
      have h1 : (71517 : Int) ≤ (t : Int) := by exact_mod_cast hc
      nlinarith [mul_nonneg (by omega : (0:Int) ≤ (t : Int) - 71517)
        (by positivity : (0:Int) ≤ (t : Int))]
  · rintro ⟨h14, h716⟩
    have h1 : (14 : Int) ≤ (t : Int) := by exact_mod_cast h14
    have h2 : ((t : Int)) ≤ 71516 := by exact_mod_cast h716
    refine ⟨by omega, ?_⟩
    nlinarith [mul_nonneg (by omega : (0:Int) ≤ (t : Int) - 14)
      (by omega : (0:Int) ≤ 71516 - (t : Int))]

/-- The brute-force loop on the day 6 part-2 example round returns 71503. -/
theorem Day06.ways_example2 : Day06.ways_to_win (71530, 940200) = 71503 := by
  have h : Day06.ways_to_win (71530, 940200) = Day06.waysGo 71530 940200 71530 := rfl
  rw [h, Day06.waysGo_eq_card, Day06.example_filter_eq]
  norm_num [Nat.card_Icc]

/-- Evaluation rule for day 6 `part1` on an input whose two lines each parse
to a single number (stated over variables so that it never forces the
evaluation of `ways_to_win`). -/
theorem Day06.part1_single (input : String) (l1 l2 : List Char) (rest : List (List Char))
    (t d : Int)
    (hl : Rust.lines input.data = l1 :: l2 :: rest)
    (h1 : Day06.lineNumbers l1 = some [t]) (h2 : Day06.lineNumbers l2 = some [d]) :
    Day06.part1 input = some (1 * Day06.ways_to_win (t, d)) := by
  simp only [Day06.part1, hl, h1, h2, List.get?, Option.bind, List.zip, List.zipWith,
    List.map, List.foldl]

/-- Parsing facts for the day 6 example input with the spaces removed. -/
theorem Day06.ex2_lines : Rust.lines ("Time:71530\nDistance:940200" : String).data =
    [("Time:71530" : String).data, ("Distance:940200" : String).data] := by decide

/-- The first line of the squashed day 6 example parses to 71530. -/
theorem Day06.ex2_time : Day06.lineNumbers ("Time:71530" : String).data = some [71530] := by
  decide

/-- The second line of the squashed day 6 example parses to 940200. -/
theorem Day06.ex2_dist : Day06.lineNumbers ("Distance:940200" : String).data = some [940200] := by
  decide

/-- Removing the spaces from the day 6 example input yields the squashed
two-line input. -/
theorem Day06.ex2_squash :
    (⟨Rust.replace ("Time:      7  15   30\n            Distance:  9  40  200" : String).data [' '] []⟩ : String) =
      "Time:71530\nDistance:940200" := by decide

/-- Parsing the day 20 example yields the all-low example circuit. -/
theorem Day20.parse_ex : Day20.parseCircuit ex20 =
    some (Day20.exState false false false false false) := by decide

/-- First button press of the cycle: 4 low and 4 high pulses. -/
theorem Day20.press1 : Day20.pressButton (Day20.exState false false false false false) =
    some (Day20.exState true true true true true, 4, 4) := by decide

/-- Second button press of the cycle: 4 low and 2 high pulses. -/
theorem Day20.press2 : Day20.pressButton (Day20.exState true true true true true) =
    some (Day20.exState false false true false true, 4, 2) := by decide

/-- Third button press of the cycle: 5 low and 3 high pulses. -/
theorem Day20.press3 : Day20.pressButton (Day20.exState false false true false true) =
    some (Day20.exState true true false true false, 5, 3) := by decide

/-- Fourth button press of the cycle: 4 low and 2 high pulses, and the circuit
returns to its initial state. -/
theorem Day20.press4 : Day20.pressButton (Day20.exState true true false true false) =
    some (Day20.exState false false false false false, 4, 2) := by decide

/-- Unfolding rule for one press of the press loop. -/
theorem Day20.pressLoop_step (c c2 : Day20.Circuit) (l2 h2 : Int)
    (hp : Day20.pressButton c = some (c2, l2, h2)) (low high : Int) (n : Nat) :
    Day20.pressLoop c low high (n + 1) = Day20.pressLoop c2 (low + l2) (high + h2) n := by
  simp [Day20.pressLoop, hp]

/-- Four presses of the example circuit add 17 low and 11 high pulses and
return to the initial state. -/
theorem Day20.cycle4 (low high : Int) (n : Nat) :
    Day20.pressLoop (Day20.exState false false false false false) low high (n + 4) =
      Day20.pressLoop (Day20.exState false false false false false) (low + 17) (high + 11) n := by
  calc Day20.pressLoop (Day20.exState false false false false false) low high (n + 4)
      = Day20.pressLoop (Day20.exState true true true true true)
          (low + 4) (high + 4) (n + 3) :=
        Day20.pressLoop_step _ _ _ _ Day20.press1 low high (n + 3)
    _ = Day20.pressLoop (Day20.exState false false true false true)
          (low + 4 + 4) (high + 4 + 2) (n + 2) :=
        Day20.pressLoop_step _ _ _ _ Day20.press2 (low + 4) (high + 4) (n + 2)
    _ = Day20.pressLoop (Day20.exState true true false true false)
          (low + 4 + 4 + 5) (high + 4 + 2 + 3) (n + 1) :=
        Day20.pressLoop_step _ _ _ _ Day20.press3 (low + 4 + 4) (high + 4 + 2) (n + 1)
    _ = Day20.pressLoop (Day20.exState false false false false false)
          (low + 4 + 4 + 5 + 4) (high + 4 + 2 + 3 + 2) n :=
        Day20.pressLoop_step _ _ _ _ Day20.press4 (low + 4 + 4 + 5) (high + 4 + 2 + 3) n
    _ = Day20.pressLoop (Day20.exState false false false false false)
          (low + 17) (high + 11) n := by
        rw [show low + 4 + 4 + 5 + 4 = low + 17 by ring,
            show high + 4 + 2 + 3 + 2 = high + 11 by ring]

/-- `4k` presses of the example circuit count `17k` low and `11k` high
pulses. -/
theorem Day20.press4k (k : Nat) : ∀ low high : Int,
    Day20.pressLoop (Day20.exState false false false false false) low high (4 * k) =
      some (Day20.exState false false false false false, low + 17 * k, high + 11 * k) := by
  induction k with
  | zero =>
    intro low high
    simp [Day20.pressLoop]
  | succ k ih =>
    intro low high
    have h4 : 4 * (k + 1) = 4 * k + 4 := by ring
    rw [h4, Day20.cycle4, ih]
    refine congrArg some ?_
    refine Prod.ext rfl (Prod.ext ?_ ?_) <;> push_cast <;> ring

/-- A list contains the day it is searched for exactly when `find?` with an
equality test returns it. -/
theorem Harness.find_self (n : Nat) : ∀ (l : List Nat), n ∈ l →
    l.find? (fun d => d == n) = some n := by
  intro l hmem
  induction l with
  | nil => cases hmem
  | cons a as ih =>
    rcases List.mem_cons.mp hmem with h | h
    · subst h
      simp [List.find?]
    · by_cases ha : a = n
      · subst ha
        simp [List.find?]
      · simp only [List.find?]
        rw [show (a == n) = false from by simp [ha]]
        exact ih h

/-- `find?` with an equality test fails exactly on lists not containing the
element. -/
theorem Harness.find_not_mem (n : Nat) : ∀ (l : List Nat), ¬ n ∈ l →
    l.find? (fun d => d == n) = none := by
  intro l hmem
  induction l with
  | nil => rfl
  | cons a as ih =>
    simp only [List.find?]
    have ha : ¬ a = n := fun h => hmem (h ▸ List.mem_cons_self a as)
    rw [show (a == n) = false from by simp [ha]]
    exact ih (fun h => hmem (List.mem_cons_of_mem a h))

/-- Parsing the complete 4-node input. -/
theorem Day25.parse_k4 : Day25.parse25 k4input = some gK4 := by decide

/-- Under `oracleA`, every trial on the 4-node graph returns a 4-edge cut
(the stream does not depend on the trial index). -/
theorem Day25.k4_kargerA (i : Nat) :
    Day25.karger_min_cut gK4 (oracleA i) = some (4, 2, 2) := rfl

/-- Under the all-zero stream, every trial on the two-node graph returns a
1-edge cut. -/
theorem Day25.g2_karger (i : Nat) :
    Day25.karger_min_cut g2 ((fun _ _ => 0) i) = some (1, 1, 1) := rfl

/-- `searchTrials` consults the oracle only at the trial indices it may run. -/
theorem Day25.search_agree (g : Day25.Graph) (o o2 : Nat → Nat → Nat) :
    ∀ (n i : Nat), (∀ j, i ≤ j → j < i + n → o j = o2 j) →
      Day25.searchTrials g o i n = Day25.searchTrials g o2 i n := by
  intro n
  induction n with
  | zero => intro i _; rfl
  | succ n ih =>
    intro i h
    have hoi : o i = o2 i := h i (le_refl i) (by omega)
    cases hk : Day25.karger_min_cut g (o2 i) with
    | none => simp [Day25.searchTrials, hoi, hk]
    | some r =>
      by_cases h3 : r.1 = 3
      · simp [Day25.searchTrials, hoi, hk, h3]
      · simp only [Day25.searchTrials, hoi, hk]
        rw [if_neg h3, if_neg h3]
        exact ih (i + 1) (fun j hj1 hj2 => h j (by omega) (by omega))

/-- A value returned by `searchTrials` is the subgraph-size product of some
trial in range whose cut has exactly 3 edges. -/
theorem Day25.search_some (g : Day25.Graph) (o : Nat → Nat → Nat) :
    ∀ (n i : Nat) (p : Int), Day25.searchTrials g o i n = some p →
      ∃ j, i ≤ j ∧ j < i + n ∧ ∃ a b : Int,
        Day25.karger_min_cut g (o j) = some (3, a, b) ∧ p = a * b := by
  intro n
  induction n with
  | zero => intro i p h; exact absurd h (by simp [Day25.searchTrials])
  | succ n ih =>
    intro i p h
    simp only [Day25.searchTrials] at h
    cases hk : Day25.karger_min_cut g (o i) with
    | none =>
      rw [hk] at h
      simp at h
    | some r =>
      rw [hk] at h
      simp only [Option.some.injEq] at h
      by_cases h3 : r.1 = 3
      · rw [if_pos h3] at h
        have hr : r = (3, r.2.1, r.2.2) := by rw [← h3]
        refine ⟨i, le_refl i, by omega, r.2.1, r.2.2, ?_, ?_⟩
        · rw [hr] at hk
          exact hk
        · exact (Option.some.inj h).symm
      · rw [if_neg h3] at h
        obtain ⟨j, hj1, hj2, a, b, hk2, hp⟩ := ih (i + 1) p h
        exact ⟨j, by omega, by omega, a, b, hk2, hp⟩

/-- When no trial in range produces a 3-edge cut, `searchTrials` ends in the
panic (`none`). -/
theorem Day25.search_none (g : Day25.Graph) (o : Nat → Nat → Nat) :
    ∀ (n i : Nat),
      (∀ j, i ≤ j → j < i + n → ∀ c a b : Int,
        Day25.karger_min_cut g (o j) = some (c, a, b) → c ≠ 3) →
      Day25.searchTrials g o i n = none := by
  intro n
  induction n with
  | zero => intro i _; rfl
  | succ n ih =>
    intro i h
    cases hk : Day25.karger_min_cut g (o i) with
    | none => simp [Day25.searchTrials, hk]
    | some r =>
      have hc : r.1 ≠ 3 := by
        refine h i (le_refl i) (by omega) r.1 r.2.1 r.2.2 ?_
        rw [hk]
      simp only [Day25.searchTrials, hk]
      rw [if_neg hc]
      exact ih (i + 1) (fun j hj1 hj2 => h j (by omega) (by omega))

/-- Under `oracleB`, day 25 part 1 on the 4-node graph returns 3 (the first
trial finds a 3-edge cut separating one node from the other three). -/
theorem Day25.k4_partB : Day25.part1 k4input oracleB = some 3 := by decide

/-- Under `oracleA`, day 25 part 1 on the 4-node graph panics: all 1000
trials return a 4-edge cut. -/
theorem Day25.k4_partA : Day25.part1 k4input oracleA = none := by
  have h : Day25.searchTrials gK4 oracleA 0 1000 = none := by
    refine Day25.search_none gK4 oracleA 1000 0 ?_
    intro j _ _ c a b hk
    rw [Day25.k4_kargerA j] at hk
    have := Option.some.inj hk
    intro hc
    rw [hc] at this
    simp at this
  simp [Day25.part1, Day25.parse_k4, h]

/-- A panicking element makes the whole `mapAll` panic. -/
theorem Rust.mapAll_eq_none {α β : Type} (f : α → Option β) (xs : List α) (x : α)
    (hx : x ∈ xs) (hf : f x = none) : Rust.mapAll f xs = none := by
  induction xs with
  | nil => cases hx
  | cons a as ih =>
    rcases List.mem_cons.mp hx with h | h
    · subst h
      simp [Rust.mapAll, hf]
    · cases hfa : f a <;> simp [Rust.mapAll, hfa, ih h]

/-- Trimming only removes characters. -/
theorem Rust.mem_trim {c : Char} {l : List Char} (h : c ∈ Rust.trim l) : c ∈ l := by
  unfold Rust.trim at h
  rw [List.mem_reverse] at h
  have h2 : c ∈ (l.dropWhile Rust.isWhitespace).reverse :=
    (List.dropWhile_sublist _).subset h
  rw [List.mem_reverse] at h2
  exact (List.dropWhile_sublist _).subset h2

/-- The 1000 presses of the day 20 example count 4250 low and 2750 high
pulses and leave the circuit in its initial state. -/
theorem Day20.ex_presses :
    Day20.pressLoop (Day20.exState false false false false false) 0 0 1000 =
      some (Day20.exState false false false false false, 4250, 2750) := by
  have h := Day20.press4k 250 0 0
  rw [show (4 * 250 : Nat) = 1000 from rfl] at h
  rw [h]
  refine congrArg some (Prod.ext rfl (Prod.ext ?_ ?_)) <;> push_cast

/-- Evaluation rule for day 20 `part1` once parsing and the 1000-press
simulation are known (stated over variables so that the kernel never replays
the simulation). -/
theorem Day20.part1_eval (input : String) (c st : Day20.Circuit) (l h : Int)
    (hp : Day20.parseCircuit input = some c)
    (hl : Day20.pressLoop c 0 0 1000 = some (st, l, h)) :
    Day20.part1 input = some (l * h) := by
  simp only [Day20.part1, hp, Option.bind, hl, Option.map]

/-- Claim C3: on the published day 1 example inputs, part 1 returns 142 and
part 2 returns 281; part 2 first rewrites the spelled-out digit words into
forms containing literal digits and then applies exactly the `part1`
first-digit/last-digit summation. -/
theorem claim_C3 :
    Day01.part1 "1abc2\n            pqr3stu8vwx\n            a1b2c3d4e5f\n            treb7uchet" = some 142 ∧
    Day01.part2 "two1nine\n            eightwothree\n            abcone2threexyz\n            xtwone3four\n            4nineeightseven2\n            zoneight234\n            7pqrstsixteen" = some 281 ∧
    ∀ s : String, Day01.part2 s = Day01.part1 (Day01.fixDigitWords s) :=
  ⟨by decide, by decide, fun _ => rfl⟩

/-- Claim C4: on the published day 6 example input, part 1 returns 288 and
part 2 — which is part 1 on the input with all spaces removed — returns
71503. -/
theorem claim_C4 :
    Day06.part1 "Time:      7  15   30\n            Distance:  9  40  200" = some 288 ∧
    Day06.part2 "Time:      7  15   30\n            Distance:  9  40  200" = some 71503 := by
  refine ⟨by decide, ?_⟩
  have e0 : Day06.part2 "Time:      7  15   30\n            Distance:  9  40  200" =
      Day06.part1 "Time:71530\nDistance:940200" := congrArg Day06.part1 Day06.ex2_squash
  have e1 : Day06.part1 "Time:71530\nDistance:940200" =
      some (1 * Day06.ways_to_win (71530, 940200)) :=
    Day06.part1_single _ _ _ [] _ _ Day06.ex2_lines Day06.ex2_time Day06.ex2_dist
  have e2 : some (1 * Day06.ways_to_win (71530, 940200)) = (some 71503 : Option Int) :=
    congrArg some ((congrArg (fun x : Int => 1 * x) Day06.ways_example2).trans (one_mul 71503))
  exact e0.trans (e1.trans e2)

/-- Claim C5: on the published day 20 example input, part 1 returns 11687500,
which is the product of the 4250 low and 2750 high pulses counted over
exactly 1000 simulated button presses of the parsed gate network. -/
theorem claim_C5 :
    Day20.parseCircuit ex20 = some (Day20.exState false false false false false) ∧
    Day20.pressLoop (Day20.exState false false false false false) 0 0 1000 =
      some (Day20.exState false false false false false, 4250, 2750) ∧
    Day20.part1 ex20 = some (4250 * 2750) ∧ ((4250 : Int) * 2750 = 11687500) :=
  ⟨Day20.parse_ex, Day20.ex_presses,
   Day20.part1_eval ex20 _ _ _ _ Day20.parse_ex Day20.ex_presses, by norm_num⟩

/-- Claim C6: with no CLI argument the selected day is the maximum of the
days present (25); a numeric argument naming a present day selects that
day. -/
theorem claim_C6 :
    Harness.selectDay none = some 25 ∧
    (∀ (s : String) (n : Nat), Rust.parseU32 s.data = some n → n ∈ Harness.solutionDays →
      Harness.selectDay (some s) = some n) := by
  constructor
  · decide
  · intro s n hp hmem
    have hmax : Harness.solutionDays.max? = some 25 := by decide
    simp only [Harness.selectDay, hmax, Option.bind, hp, Option.getD]
    exact Harness.find_self n _ hmem

/-- Witness for C6: the argument `"7"` selects day 7. -/
theorem claim_C6_witness :
    Rust.parseU32 ("7" : String).data = some 7 ∧ 7 ∈ Harness.solutionDays ∧
    Harness.selectDay (some "7") = some 7 :=
  ⟨by decide, by decide, claim_C6.2 "7" 7 (by decide) (by decide)⟩

/-- Claim C7: the harness reads exactly `inputs/dayNN.txt` (`NN` the
zero-padded two-digit day number) and runs part 1 followed by part 2 on that
same file content. -/
theorem claim_C7 (day : Nat) (hday : day ≤ 25) :
    Harness.dayInputPath day = Harness.specDayPath day ∧
    (∀ {α : Type} (p1 p2 : String → α) (fs : String → Option String) (input : String),
      fs (Harness.dayInputPath day) = some input →
      Harness.run_solution_day p1 p2 day fs = some (p1 input, p2 input)) := by
  constructor
  · interval_cases day <;> rfl
  · intro α p1 p2 fs input h
    simp [Harness.run_solution_day, h]

/-- Witness for C7: day 7 reads `inputs/day07.txt` and runs both parts on its
content. -/
theorem claim_C7_witness :
    Harness.dayInputPath 7 = Harness.specDayPath 7 ∧
    Harness.run_solution_day (fun _ => (0 : Int)) (fun _ => (1 : Int)) 7
      (fun p => if p = "inputs/day07.txt" then some "abc" else none) = some (0, 1) :=
  ⟨(claim_C7 7 (by norm_num)).1,
   (claim_C7 7 (by norm_num)).2 _ _ _ "abc" (by decide)⟩

/-- Claim C8: an input with a line containing no decimal digit makes day 1
part 1 panic (the `unwrap` on the missing first/last digit). -/
theorem claim_C8 (input : String) (l : List Char)
    (hl : l ∈ Rust.lines input.data) (hnd : ∀ c ∈ l, c.isDigit = false) :
    Day01.part1 input = none := by
  have hline : Day01.lineNumber l = none := by
    have hfilter : (Rust.trim l).filter (fun c => c.isDigit) = [] := by
      rw [List.filter_eq_nil_iff]
      intro c hc
      simp [hnd c (Rust.mem_trim hc)]
    simp [Day01.lineNumber, hfilter]
  have hall : Rust.mapAll Day01.lineNumber (Rust.lines input.data) = none :=
    Rust.mapAll_eq_none _ _ _ hl hline
  simp [Day01.part1, Day01.sum_numbers, hall]

/-- Witness for C8: the digitless input `"treb"` makes day 1 part 1 panic. -/
theorem claim_C8_witness :
    (("treb" : String).data ∈ Rust.lines ("treb" : String).data) ∧
    Day01.part1 "treb" = none :=
  ⟨by decide, claim_C8 "treb" ("treb" : String).data (by decide) (by decide)⟩

/-- Claim C9: a CLI argument that does not parse as a `u32` is ignored and
the latest day (25) runs; an argument parsing to an absent day panics before
any solution runs (for every `run`). -/
theorem claim_C9 {α : Type} (run : Nat → Option α) (s : String) :
    (Rust.parseU32 s.data = none → Harness.mainRun run (some s) = run 25) ∧
    (∀ n : Nat, Rust.parseU32 s.data = some n → ¬ n ∈ Harness.solutionDays →
      Harness.mainRun run (some s) = none) := by
  have hmax : Harness.solutionDays.max? = some 25 := by decide
  constructor
  · intro hp
    simp only [Harness.mainRun, Harness.selectDay, hmax, Option.bind, hp, Option.getD]
    rw [show Harness.solutionDays.find? (fun d => d == 25) = some 25 from by decide]
  · intro n hp hmem
    simp only [Harness.mainRun, Harness.selectDay, hmax, Option.bind, hp, Option.getD]
    rw [Harness.find_not_mem n _ hmem]

/-- Witness for C9: `"xy"` is ignored (day 25 runs); `"26"` parses but names
no solution, so nothing runs. -/
theorem claim_C9_witness :
    Rust.parseU32 ("xy" : String).data = none ∧
    Harness.mainRun (fun d => some d) (some "xy") = some 25 ∧
    Rust.parseU32 ("26" : String).data = some 26 ∧
    ¬ (26 ∈ Harness.solutionDays) ∧
    Harness.mainRun (fun d => some d) (some "26") = none := by
  refine ⟨by decide, ?_, by decide, by decide, ?_⟩
  · exact (claim_C9 (fun d => some d) "xy").1 (by decide)
  · exact (claim_C9 (fun d => some d) "26").2 26 (by decide) (by decide)

/-- Claim C1: for every parsed input graph, day 25 part 1 consults at most
1000 trial random streams; any returned value is the subgraph-size product of
a trial whose cut has exactly 3 edges; and when no trial among the 1000
produces a 3-edge cut it panics instead of returning a value. -/
theorem claim_C1 (input : String) (g : Day25.Graph) (oracle oracle2 : Nat → Nat → Nat)
    (hparse : Day25.parse25 input = some g) :
    ((∀ i, i < 1000 → oracle i = oracle2 i) →
        Day25.part1 input oracle = Day25.part1 input oracle2) ∧
    (∀ p, Day25.part1 input oracle = some p →
        ∃ i, i < 1000 ∧ ∃ a b : Int,
          Day25.karger_min_cut g (oracle i) = some (3, a, b) ∧ p = a * b) ∧
    ((∀ i, i < 1000 → ∀ c a b : Int,
        Day25.karger_min_cut g (oracle i) = some (c, a, b) → c ≠ 3) →
        Day25.part1 input oracle = none) := by
  have hpart : ∀ o : Nat → Nat → Nat,
      Day25.part1 input o = Day25.searchTrials g o 0 1000 := by
    intro o
    simp [Day25.part1, hparse]
  refine ⟨?_, ?_, ?_⟩
  · intro h
    rw [hpart, hpart]
    exact Day25.search_agree g oracle oracle2 1000 0 (fun j _ hj2 => h j (by omega))
  · intro p hp
    rw [hpart] at hp
    obtain ⟨j, _, hj2, a, b, hk, hpe⟩ := Day25.search_some g oracle 1000 0 p hp
    exact ⟨j, by omega, a, b, hk, hpe⟩
  · intro h
    rw [hpart]
    exact Day25.search_none g oracle 1000 0 (fun j _ hj2 => h j (by omega))

/-- Witness for C1: on the two-node graph `"aa: bb"` with the all-zero
stream, every trial cuts one edge, so part 1 panics. -/
theorem claim_C1_witness : Day25.part1 "aa: bb" (fun _ _ => 0) = none :=
  (claim_C1 "aa: bb" g2 (fun _ _ => 0) (fun _ _ => 0) (by decide)).2.2
    (fun i _ c a b hk hc => by
      subst hc
      rw [Day25.g2_karger i] at hk
      simp [Prod.ext_iff] at hk)

/-- Counterexample to C2 as stated: day 25 part 1 is not a function of the
input text alone — on the same 4-node input, one random state returns 3 while
another makes all 1000 trials fail, ending in a panic. -/
theorem claim_C2_counterexample :
    Day25.part1 k4input oracleB = some 3 ∧ Day25.part1 k4input oracleA = none :=
  ⟨Day25.k4_partB, Day25.k4_partA⟩

/-- Claim C2 as amended: every day module other than day 25 part 1 is a pure
function of the input text (their embeddings take only the input string);
day 25 part 1 additionally depends on the thread-local random state, and
there exist random states under which two invocations on the same input
disagree (one returns a value, the other panics). -/
theorem claim_C2_amended : ∃ o o2 : Nat → Nat → Nat,
    Day25.part1 k4input o = some 3 ∧ Day25.part1 k4input o2 = none :=
  ⟨oracleB, oracleA, Day25.k4_partB, Day25.k4_partA⟩

/-- Claim C10: day 25 part 2 returns 0 for every input, ignoring its
argument. -/
theorem claim_C10 : ∀ s t : String, Day25.part2 s = 0 ∧ Day25.part2 s = Day25.part2 t :=
  fun _ _ => ⟨rfl, rfl⟩
